import Mathlib

/-!
Verification of `ncei_ghcn_data/daily_summaries.py`.

The program fetches daily weather summaries from the NCEI HTTP service and
runs a fixed pipeline: date validation, URL construction, the HTTP fetch
(external collaborator), key translation (short category codes to field
names, via `ConversionEnum`), type coercion of string values, and record
normalization (`_remap_dictionaries`, filling absent fields from the
`DailySummary` dataclass defaults).

This file shallowly embeds that pipeline: the two schema tables become
association lists, records become association lists of string keys to a
typed value sum, and every fallible step returns `Except PipelineError`.
-/

namespace NCEI

/-- Error kinds raised by the pipeline.  In the Python source these are
`ValueError` (date validation), `KeyError` (unknown category code),
`ValueError` from `int`/`float`/`datetime` constructors (type coercion),
and the `ResponseError` exception class. -/
inductive PipelineError where
  | validationError (msg : String)
  | unknownFieldError (code : String)
  | typeCoercionError
  | responseError (msg : String)
deriving DecidableEq

/-- The declared semantic type of a schema field: the annotation types of the
`DailySummary` dataclass (`datetime.date`, `str`, `int`, `float`, `bool`,
`datetime.time`). -/
inductive FType where
  | date
  | str
  | int
  | float
  | bool
  | time
deriving DecidableEq

/-- A coerced value, the union `str | int | float | bool | datetime.date |
datetime.time` of the source's `CoercedDicts` alias, together with `none`
for Python `None` (the dataclass default of every non-boolean field).
Floats are modelled as rationals. -/
inductive Value where
  | none
  | str (s : String)
  | int (n : Int)
  | float (q : Rat)
  | bool (b : Bool)
  | date (y m d : Nat)
  | time (hour minute : Nat)
deriving DecidableEq

instance exceptDecEq {ε α : Type} [DecidableEq ε] [DecidableEq α] :
    DecidableEq (Except ε α) := fun x y =>
  match x, y with
  | Except.error a, Except.error b =>
    if h : a = b then isTrue (by rw [h])
    else isFalse (by intro hc; injection hc; contradiction)
  | Except.error _, Except.ok _ => isFalse (by intro hc; cases hc)
  | Except.ok _, Except.error _ => isFalse (by intro hc; cases hc)
  | Except.ok a, Except.ok b =>
    if h : a = b then isTrue (by rw [h])
    else isFalse (by intro hc; injection hc; contradiction)

/-- The fields of the `DailySummary` dataclass, in declaration order, each
with its annotated type. -/
def dailySummaryFields : List (String × FType) :=
  [("date", FType.date),
   ("station", FType.str),
   ("avg_temp", FType.int),
   ("min_temp", FType.int),
   ("max_temp", FType.int),
   ("precipitation", FType.float),
   ("snowfall", FType.float),
   ("snow_depth", FType.float),
   ("cloudiness_midnight_to_midnight", FType.float),
   ("cloudiness_sunrise_to_sunset", FType.float),
   ("percent_possible_sunshine", FType.int),
   ("total_sunshine", FType.int),
   ("frozen_ground_layer", FType.int),
   ("water_equivalent_snow_on_ground", FType.float),
   ("fog", FType.bool),
   ("heavy_fog", FType.bool),
   ("thunder", FType.bool),
   ("sleet", FType.bool),
   ("hail", FType.bool),
   ("glaze", FType.bool),
   ("dust", FType.bool),
   ("smoke", FType.bool),
   ("blowing_snow", FType.bool),
   ("high_wind", FType.bool),
   ("mist", FType.bool),
   ("drizzle", FType.bool),
   ("freezing_drizzle", FType.bool),
   ("rain", FType.bool),
   ("freezing_rain", FType.bool),
   ("snow", FType.bool),
   ("other_precipitation", FType.bool),
   ("ground_fog", FType.bool),
   ("ice_fog", FType.bool),
   ("avg_wind", FType.float),
   ("fog_in_area", FType.bool),
   ("thunder_in_area", FType.bool),
   ("rain_or_snow_in_area", FType.bool),
   ("time_fastest_mile_or_fastest_1_minute_wind", FType.time),
   ("peak_gust_time", FType.time),
   ("direction_fastest_1_minute_wind", FType.int),
   ("direction_fastest_2_minute_wind", FType.int),
   ("direction_fastest_5_second_wind", FType.int),
   ("direction_peak_gust", FType.int),
   ("direction_fastest_mile_wind", FType.int),
   ("fastest_1_minute_wind", FType.float),
   ("fastest_2_minute_wind", FType.float),
   ("fastest_5_second_wind", FType.float),
   ("peak_gust", FType.float),
   ("fastest_mile_wind", FType.float),
   ("avg_relative_humidity", FType.int),
   ("min_relative_humidity", FType.int),
   ("max_relative_humidity", FType.int),
   ("avg_sea_level_pressure", FType.float),
   ("avg_station_pressure", FType.float),
   ("avg_dew_point_temperature", FType.int),
   ("avg_wet_bulb_temperature", FType.int)]

/-- The `ConversionEnum` table: short upstream category code to descriptive
field name, in declaration order. -/
def conversionEnum : List (String × String) :=
  [("DATE", "date"),
   ("STATION", "station"),
   ("TAVG", "avg_temp"),
   ("TMIN", "min_temp"),
   ("TMAX", "max_temp"),
   ("PRCP", "precipitation"),
   ("SNOW", "snowfall"),
   ("SNWD", "snow_depth"),
   ("ACMH", "cloudiness_midnight_to_midnight"),
   ("ACSH", "cloudiness_sunrise_to_sunset"),
   ("PSUN", "percent_possible_sunshine"),
   ("TSUN", "total_sunshine"),
   ("FRGT", "frozen_ground_layer"),
   ("WESD", "water_equivalent_snow_on_ground"),
   ("WT01", "fog"),
   ("WT02", "heavy_fog"),
   ("WT03", "thunder"),
   ("WT04", "sleet"),
   ("WT05", "hail"),
   ("WT06", "glaze"),
   ("WT07", "dust"),
   ("WT08", "smoke"),
   ("WT09", "blowing_snow"),
   ("WT11", "high_wind"),
   ("WT13", "mist"),
   ("WT14", "drizzle"),
   ("WT15", "freezing_drizzle"),
   ("WT16", "rain"),
   ("WT17", "freezing_rain"),
   ("WT18", "snow"),
   ("WT19", "other_precipitation"),
   ("WT21", "ground_fog"),
   ("WT22", "ice_fog"),
   ("WV01", "fog_in_area"),
   ("WV03", "thunder_in_area"),
   ("WV20", "rain_or_snow_in_area"),
   ("AWND", "avg_wind"),
   ("FMTM", "time_fastest_mile_or_fastest_1_minute_wind"),
   ("PGTM", "peak_gust_time"),
   ("WDF1", "direction_fastest_1_minute_wind"),
   ("WDF2", "direction_fastest_2_minute_wind"),
   ("WDF5", "direction_fastest_5_second_wind"),
   ("WDFG", "direction_peak_gust"),
   ("WDFM", "direction_fastest_mile_wind"),
   ("WSF1", "fastest_1_minute_wind"),
   ("WSF2", "fastest_2_minute_wind"),
   ("WSF5", "fastest_5_second_wind"),
   ("WSFG", "peak_gust"),
   ("WSFM", "fastest_mile_wind"),
   ("RHAV", "avg_relative_humidity"),
   ("RHMN", "min_relative_humidity"),
   ("RHMX", "max_relative_humidity"),
   ("ASLP", "avg_sea_level_pressure"),
   ("ASTP", "avg_station_pressure"),
   ("ADPT", "avg_dew_point_temperature"),
   ("AWBT", "avg_wet_bulb_temperature")]

/-- The dataclass default for a field of a given type: boolean fields default
to `False`, every other field defaults to `None`. -/
def defaultFor (t : FType) : Value :=
  match t with
  | FType.bool => Value.bool false
  | _ => Value.none

/-- `asdict(DailySummary())`: field name to default value, in field order. -/
def templateDict : List (String × Value) :=
  dailySummaryFields.map (fun nt => (nt.1, defaultFor nt.2))

/-- Python slice `s[:n]`: the first `n` characters (the whole string when it
is shorter than `n`). -/
def pyTake (n : Nat) (s : String) : String :=
  String.mk (s.toList.take n)

/-- Python slice `s[-n:]`: the last `n` characters (the whole string when it
is shorter than `n`). -/
def pyTakeRight (n : Nat) (s : String) : String :=
  String.mk ((s.toList.reverse.take n).reverse)

/-- Python `s.strip()` / the whitespace stripping done by `int(s)`: drop
whitespace from both ends. -/
def pyStrip (s : String) : String :=
  String.mk (((s.toList.dropWhile Char.isWhitespace).reverse.dropWhile
    Char.isWhitespace).reverse)

/-- Decimal value of an ASCII digit character. -/
def digitVal (c : Char) : Nat := c.toNat - 48

/-- A non-empty all-digit character run parsed as a natural number. -/
def parseDigits (l : List Char) : Option Nat :=
  if l.isEmpty || !(l.all Char.isDigit) then Option.none
  else some (l.foldl (fun a c => a * 10 + digitVal c) 0)

/-- Python `int(s)` on a string: optional surrounding whitespace, optional
sign, then a non-empty digit run; anything else raises `ValueError`. -/
def pyInt (s : String) : Option Int :=
  match (pyStrip s).toList with
  | '-' :: rest => (parseDigits rest).map (fun n => -(n : Int))
  | '+' :: rest => (parseDigits rest).map (fun n => (n : Int))
  | l => (parseDigits l).map (fun n => (n : Int))

/-- Split a character list at every dot, as `"…".split(".")` would. -/
def splitDot : List Char → List (List Char)
  | [] => [[]]
  | c :: rest =>
    let r := splitDot rest
    if c = '.' then [] :: r
    else
      match r with
      | [] => [[c]]
      | h :: t => (c :: h) :: t

/-- Python `float(s)` on the plain decimal literals the service emits:
optional surrounding whitespace, optional sign, digits with an optional
decimal point and at least one digit overall; anything else raises
`ValueError`. -/
def pyFloat (s : String) : Option Rat :=
  let t := (pyStrip s).toList
  let sgn : Rat := if t.take 1 = ['-'] then -1 else 1
  let body := if t.take 1 = ['-'] ∨ t.take 1 = ['+'] then t.drop 1 else t
  match splitDot body with
  | [ip] => (parseDigits ip).map (fun n => sgn * (n : Rat))
  | [ip, fp] =>
    if (!ip.isEmpty || !fp.isEmpty) && ip.all Char.isDigit && fp.all Char.isDigit then
      some (sgn * ((((parseDigits ip).getD 0 : Nat) : Rat)
        + (((parseDigits fp).getD 0 : Nat) : Rat) / ((10 : Rat) ^ fp.length)))
    else Option.none
  | _ => Option.none

/-- Python string `<`: lexicographic comparison of code points, a strict
prefix comparing less than the longer string. -/
def charListLt : List Char → List Char → Bool
  | [], [] => false
  | [], _ :: _ => true
  | _ :: _, [] => false
  | a :: as, b :: bs =>
    if a.toNat < b.toNat then true
    else if b.toNat < a.toNat then false
    else charListLt as bs

/-- Python `a < b` on strings. -/
def pyStrLt (a b : String) : Bool := charListLt a.toList b.toList

/-- Number of days in a month, as enforced by `datetime.date`. -/
def daysInMonth (y m : Nat) : Nat :=
  if m = 2 then
    if y % 4 = 0 && (y % 100 ≠ 0 || y % 400 = 0) then 29 else 28
  else if m = 4 || m = 6 || m = 9 || m = 11 then 30
  else 31

/-- Python `datetime.date.fromisoformat(s)`: exactly `YYYY-MM-DD` with a
valid calendar date (year at least 1); anything else raises `ValueError`. -/
def parseIsoDate (s : String) : Option (Nat × Nat × Nat) :=
  match s.toList with
  | [y1, y2, y3, y4, c1, m1, m2, c2, d1, d2] =>
    if [y1, y2, y3, y4, m1, m2, d1, d2].all Char.isDigit && c1 = '-' && c2 = '-' then
      let y := ((digitVal y1 * 10 + digitVal y2) * 10 + digitVal y3) * 10 + digitVal y4
      let m := digitVal m1 * 10 + digitVal m2
      let d := digitVal d1 * 10 + digitVal d2
      if 1 ≤ y && 1 ≤ m && m ≤ 12 && 1 ≤ d && d ≤ daysInMonth y m then
        some (y, m, d)
      else Option.none
    else Option.none
  | _ => Option.none

/-- `DailySummaries._convert_time_string`: builds
`datetime.time(hour=int(time_string[:3]), minute=int(time_string[-2:]))`.
`int` raises `ValueError` on non-numeric text and `datetime.time` raises
`ValueError` unless `0 <= hour <= 23` and `0 <= minute <= 59`. -/
def convertTimeString (time_string : String) : Except PipelineError Value :=
  match pyInt (pyTake 3 time_string), pyInt (pyTakeRight 2 time_string) with
  | some h, some m =>
    if 0 ≤ h ∧ h ≤ 23 ∧ 0 ≤ m ∧ m ≤ 59 then
      Except.ok (Value.time h.toNat m.toNat)
    else Except.error PipelineError.typeCoercionError
  | _, _ => Except.error PipelineError.typeCoercionError

/-- The per-type dispatch of `DailySummaries._coerce_types`: `int`, `float`,
`bool` (`True if v.strip() == "1" else False`), `date`
(`datetime.date.fromisoformat`), `time` (`_convert_time_string`); a `str`
field takes no branch and keeps its string value. -/
def coerceValue (t : FType) (v : String) : Except PipelineError Value :=
  match t with
  | FType.int =>
    match pyInt v with
    | some n => Except.ok (Value.int n)
    | Option.none => Except.error PipelineError.typeCoercionError
  | FType.float =>
    match pyFloat v with
    | some q => Except.ok (Value.float q)
    | Option.none => Except.error PipelineError.typeCoercionError
  | FType.bool => Except.ok (Value.bool (pyStrip v == "1"))
  | FType.date =>
    match parseIsoDate v with
    | some ymd => Except.ok (Value.date ymd.1 ymd.2.1 ymd.2.2)
    | Option.none => Except.error PipelineError.typeCoercionError
  | FType.time => convertTimeString v
  | FType.str => Except.ok (Value.str v)

/-- `DailySummaries._coerce_types` on one row: every value is coerced to the
type `dtype_dict` (built from the `DailySummary` annotations) declares for
its key; a key outside the annotation table raises `KeyError`. -/
def coerceRow : List (String × String) → Except PipelineError (List (String × Value))
  | [] => Except.ok []
  | (k, v) :: rest =>
    match dailySummaryFields.lookup k with
    | Option.none => Except.error (PipelineError.unknownFieldError k)
    | some t =>
      match coerceValue t v with
      | Except.error e => Except.error e
      | Except.ok cv =>
        match coerceRow rest with
        | Except.error e => Except.error e
        | Except.ok tl => Except.ok ((k, cv) :: tl)

/-- `DailySummaries._coerce_types` over the whole row list. -/
def coerceTypes : List (List (String × String)) →
    Except PipelineError (List (List (String × Value)))
  | [] => Except.ok []
  | r :: rs =>
    match coerceRow r with
    | Except.error e => Except.error e
    | Except.ok cr =>
      match coerceTypes rs with
      | Except.error e => Except.error e
      | Except.ok crs => Except.ok (cr :: crs)

/-- `DailySummaries._convert_keys` on one row: the dict comprehension
`{ConversionEnum[k].value: v for k, v in i.items()}`; the first category
code absent from `ConversionEnum` raises `KeyError`. -/
def convertKeysRow : List (String × String) → Except PipelineError (List (String × String))
  | [] => Except.ok []
  | (k, v) :: rest =>
    match conversionEnum.lookup k with
    | Option.none => Except.error (PipelineError.unknownFieldError k)
    | some name =>
      match convertKeysRow rest with
      | Except.error e => Except.error e
      | Except.ok tl => Except.ok ((name, v) :: tl)

/-- `DailySummaries._convert_keys` over the whole row list. -/
def convertKeys : List (List (String × String)) →
    Except PipelineError (List (List (String × String)))
  | [] => Except.ok []
  | r :: rs =>
    match convertKeysRow r with
    | Except.error e => Except.error e
    | Except.ok cr =>
      match convertKeys rs with
      | Except.error e => Except.error e
      | Except.ok crs => Except.ok (cr :: crs)

/-- The body of the `_remap_dictionaries` inner loop: `i[key]` when
`key in i.keys()`, otherwise `template_dict[key]`. -/
def remapValue (i : List (String × Value)) (key : String) (dflt : Value) : Value :=
  match i.lookup key with
  | some v => v
  | Option.none => dflt

/-- The inner loop of `DailySummaries._remap_dictionaries`: for each key of
`template_dict` in order, copy the row's value when the key is present,
otherwise copy the template default. -/
def remapRow (i : List (String × Value)) : List (String × Value) :=
  templateDict.map (fun kd => (kd.1, remapValue i kd.1 kd.2))

/-- `DailySummaries._remap_dictionaries`. -/
def remapDictionaries (data : List (List (String × Value))) :
    List (List (String × Value)) :=
  data.map remapRow

/-- `DailySummaries._validate_dates` on the string/string path: a string
argument whose length is not 10 raises `ValueError`, then
`start_date > end_date` (Python lexicographic string comparison) raises
`ValueError`; otherwise the pair is returned unchanged. -/
def validateDates (start_date end_date : String) :
    Except PipelineError (String × String) :=
  if start_date.length ≠ 10 then
    Except.error (PipelineError.validationError "Start date must be in the form YYYY-MM-DD.")
  else if end_date.length ≠ 10 then
    Except.error (PipelineError.validationError "End date must be in the form YYYY-MM-DD.")
  else if pyStrLt end_date start_date then
    Except.error (PipelineError.validationError "Start date must be before end date.")
  else Except.ok (start_date, end_date)

/-- `DailySummaries._base_url`. -/
def base_url : String :=
  "https://www.ncei.noaa.gov/access/services/data/v1?dataset=daily-summaries"

/-- `DailySummaries._format_string`. -/
def format_string : String := "&format=json"

/-- `DailySummaries._construct_request_url`. -/
def constructRequestUrl (start_date end_date station_id units : String) : String :=
  base_url ++ "&startDate=" ++ start_date ++ "&endDate=" ++ end_date
    ++ "&stations=" ++ station_id ++ "&units=" ++ units ++ format_string

/-- A parsed transport response: either a JSON array of flat string-valued
rows, or a JSON object (an error envelope) whose rendered content is a
string. -/
inductive JsonResponse where
  | arr (rows : List (List (String × String)))
  | obj (content : String)

/-- `DailySummaries._make_api_call`, with the transport
(`requests.get(url).json()`) passed in as the function `fetch`: an empty
`units` falls back to `"standard"` (`if not units`), the URL is built, and
a dict response raises `ResponseError` with the envelope interpolated into
the message. -/
def makeApiCall (fetch : String → JsonResponse)
    (start_date end_date station_id units : String) :
    Except PipelineError (List (List (String × String))) :=
  let units := if units = "" then "standard" else units
  let url := constructRequestUrl start_date end_date station_id units
  match fetch url with
  | JsonResponse.obj content =>
    Except.error (PipelineError.responseError
      ("API returned the following error: " ++ content))
  | JsonResponse.arr rows => Except.ok rows

/-- `DailySummaries.get_daily_summaries` with `return_raw=False`: the fixed
pipeline validate, fetch, convert keys, coerce types, remap (the final
`DailySummary(**i)` construction keeps exactly the remapped fields). -/
def getDailySummaries (fetch : String → JsonResponse)
    (station_id start_date end_date : String) (units : String := "standard") :
    Except PipelineError (List (List (String × Value))) :=
  match validateDates start_date end_date with
  | Except.error e => Except.error e
  | Except.ok se =>
    match makeApiCall fetch se.1 se.2 station_id units with
    | Except.error e => Except.error e
    | Except.ok raw =>
      match convertKeys raw with
      | Except.error e => Except.error e
      | Except.ok keyed =>
        match coerceTypes keyed with
        | Except.error e => Except.error e
        | Except.ok coerced => Except.ok (remapDictionaries coerced)

/-! ### Association-list lemmas -/

theorem lookup_map_entry {β γ : Type} (f : String → β → γ) (l : List (String × β))
    (a : String) :
    (l.map (fun kd => (kd.1, f kd.1 kd.2))).lookup a = (l.lookup a).map (f a) := by
  induction l with
  | nil => rfl
  | cons kv t ih =>
    obtain ⟨k, v⟩ := kv
    simp only [List.map_cons, List.lookup_cons]
    by_cases h : a = k
    · subst h; simp
    · have hb : (a == k) = false := by simp [h]
      simp [hb, ih]

theorem lookup_isSome_iff {β : Type} (l : List (String × β)) (a : String) :
    (l.lookup a).isSome = true ↔ a ∈ l.map Prod.fst := by
  induction l with
  | nil => simp
  | cons kv t ih =>
    obtain ⟨k, v⟩ := kv
    by_cases h : a = k
    · subst h; simp [List.lookup_cons]
    · have hb : (a == k) = false := by simp [h]
      simp [List.lookup_cons, hb, h, ih]

theorem templateDict_lookup (name : String) :
    templateDict.lookup name = (dailySummaryFields.lookup name).map defaultFor := by
  unfold templateDict
  exact lookup_map_entry (fun _ t => defaultFor t) dailySummaryFields name

theorem remapRow_lookup (i : List (String × Value)) (name : String) :
    (remapRow i).lookup name = (templateDict.lookup name).map (remapValue i name) := by
  unfold remapRow
  exact lookup_map_entry (remapValue i) templateDict name

/-! ### The claims -/

/-- Claim C1: for every sequence of partial typed records, `_remap_dictionaries`
returns a sequence of the same length in which every output record's key
list is exactly the `DailySummary` field-name list: no schema key is
omitted and no key outside the schema appears, regardless of which keys
each input record contained. -/
theorem claim_c1 (data : List (List (String × Value))) :
    (remapDictionaries data).length = data.length ∧
    (remapDictionaries data).map (fun r => r.map Prod.fst)
      = data.map (fun _ => dailySummaryFields.map Prod.fst) := by
  constructor
  · simp [remapDictionaries]
  · simp only [remapDictionaries, List.map_map]
    apply List.map_congr_left
    intro r _
    simp [Function.comp, remapRow, templateDict, List.map_map]

/-- Claim C2: boolean coercion maps a string to `true` exactly when it equals
`"1"` after trimming surrounding whitespace and to `false` for every other
string; and a boolean schema field absent from a raw row normalizes to
`false`. -/
theorem claim_c2 (v : String) (name : String) (r : List (String × Value))
    (hb : dailySummaryFields.lookup name = some FType.bool) :
    (coerceValue FType.bool v = Except.ok (Value.bool true) ↔ pyStrip v = "1") ∧
    (pyStrip v ≠ "1" → coerceValue FType.bool v = Except.ok (Value.bool false)) ∧
    (r.lookup name = Option.none → (remapRow r).lookup name = some (Value.bool false)) := by
  refine ⟨?_, ?_, ?_⟩
  · simp [coerceValue]
  · intro h; simp [coerceValue, h]
  · intro habs
    rw [remapRow_lookup, templateDict_lookup, hb]
    simp [remapValue, habs, defaultFor]

theorem claim_c2_witness :
    coerceValue FType.bool " 1 " = Except.ok (Value.bool true) ∧
    (remapRow []).lookup "fog" = some (Value.bool false) :=
  ⟨(claim_c2 " 1 " "fog" [] (by decide)).1.mpr (by decide),
   (claim_c2 " 1 " "fog" [] (by decide)).2.2 rfl⟩

/-- Claim C3: `_convert_time_string` computes the hour from the first three
characters and the minute from the last two characters, each parsed as an
integer, with no seconds component; it fails with `TypeCoercionError` when
the minute is not in `[0, 59]`, the hour is not in `[0, 23]`, or the text
is non-numeric, and it is exactly the coercion used for time fields. -/
theorem claim_c3 (s : String) :
    ((pyInt (pyTake 3 s) = Option.none ∨ pyInt (pyTakeRight 2 s) = Option.none) →
      convertTimeString s = Except.error PipelineError.typeCoercionError) ∧
    (∀ h m : Int, pyInt (pyTake 3 s) = some h → pyInt (pyTakeRight 2 s) = some m →
      (convertTimeString s = Except.ok (Value.time h.toNat m.toNat) ↔
        0 ≤ h ∧ h ≤ 23 ∧ 0 ≤ m ∧ m ≤ 59) ∧
      (¬(0 ≤ h ∧ h ≤ 23 ∧ 0 ≤ m ∧ m ≤ 59) →
        convertTimeString s = Except.error PipelineError.typeCoercionError)) ∧
    coerceValue FType.time s = convertTimeString s := by
  refine ⟨?_, ?_, rfl⟩
  · intro hcase
    unfold convertTimeString
    rcases hcase with h1 | h2
    · rw [h1]
    · rw [h2]; cases pyInt (pyTake 3 s) <;> rfl
  · intro h m hh hm
    unfold convertTimeString
    rw [hh, hm]
    constructor
    · by_cases hr : 0 ≤ h ∧ h ≤ 23 ∧ 0 ≤ m ∧ m ≤ 59
      · simp [hr]
      · simp [hr]
    · intro hr; simp [hr]

theorem claim_c3_witness :
    convertTimeString "02359" = Except.ok (Value.time (23 : Int).toNat (59 : Int).toNat) :=
  ((claim_c3 "02359").2.1 23 59 (by decide) (by decide)).1.mpr (by decide)

/-- Claim C4: `_convert_keys` fails with `UnknownFieldError` exactly when the
row contains a category code not present in `ConversionEnum`, and the
reported code is itself unknown: unknown codes are a hard error and are
never silently dropped. -/
theorem claim_c4 (row : List (String × String)) :
    (∃ c ∈ row.map Prod.fst, conversionEnum.lookup c = Option.none) ↔
    (∃ c, convertKeysRow row = Except.error (PipelineError.unknownFieldError c) ∧
      conversionEnum.lookup c = Option.none) := by
  induction row with
  | nil =>
    constructor
    · rintro ⟨c, hc, _⟩; simp at hc
    · rintro ⟨c, hc, _⟩; simp [convertKeysRow] at hc
  | cons kv t ih =>
    obtain ⟨k, v⟩ := kv
    constructor
    · rintro ⟨c, hc, hlk⟩
      cases hk : conversionEnum.lookup k with
      | none => exact ⟨k, by simp [convertKeysRow, hk], hk⟩
      | some name =>
        have hct : c ∈ t.map Prod.fst := by
          simp only [List.map_cons, List.mem_cons] at hc
          rcases hc with rfl | hc
          · rw [hk] at hlk; cases hlk
          · exact hc
        obtain ⟨c2, hc2, hlk2⟩ := ih.1 ⟨c, hct, hlk⟩
        refine ⟨c2, ?_, hlk2⟩
        simp [convertKeysRow, hk, hc2]
    · rintro ⟨c, hc, hlk⟩
      cases hk : conversionEnum.lookup k with
      | none =>
        simp [convertKeysRow, hk] at hc
        exact ⟨k, by simp, hk⟩
      | some name =>
        simp only [convertKeysRow, hk] at hc
        cases ht : convertKeysRow t with
        | error e =>
          rw [ht] at hc
          have he : e = PipelineError.unknownFieldError c := by simpa using hc
          obtain ⟨c2, hc2, hlk2⟩ := ih.2 ⟨c, by rw [ht, he], hlk⟩
          refine ⟨c2, ?_, hlk2⟩
          simp only [List.map_cons, List.mem_cons]
          exact Or.inr hc2
        | ok tl => rw [ht] at hc; simp at hc

theorem claim_c4_witness :
    (convertKeysRow [("XXXX", "1")]).isOk = false := by
  obtain ⟨c, hc, -⟩ := (claim_c4 [("XXXX", "1")]).mp ⟨"XXXX", by decide, by decide⟩
  rw [hc]
  rfl

/-- Claim C5: when the transport's parsed response is a JSON object,
`_make_api_call` raises `ResponseError` and the message contains the
object's content verbatim; when the response is an array, no error is
raised and the array is passed on. -/
theorem claim_c5 (fetch : String → JsonResponse) (s e st u : String) :
    (∀ content,
      fetch (constructRequestUrl s e st (if u = "" then "standard" else u)) =
        JsonResponse.obj content →
      makeApiCall fetch s e st u = Except.error (PipelineError.responseError
        ("API returned the following error: " ++ content)) ∧
      List.IsInfix content.toList
        ("API returned the following error: " ++ content).toList) ∧
    (∀ rows,
      fetch (constructRequestUrl s e st (if u = "" then "standard" else u)) =
        JsonResponse.arr rows →
      makeApiCall fetch s e st u = Except.ok rows) := by
  constructor
  · intro content hf
    constructor
    · simp only [makeApiCall]
      rw [hf]
    · exact ⟨"API returned the following error: ".toList, [], by simp [String.toList]⟩
  · intro rows hf
    simp only [makeApiCall]
    rw [hf]

theorem claim_c5_witness :
    makeApiCall (fun _ => JsonResponse.obj "bad request") "2020-05-01" "2020-06-01"
      "USW00024233" "standard" = Except.error (PipelineError.responseError
        ("API returned the following error: " ++ "bad request")) :=
  ((claim_c5 (fun _ => JsonResponse.obj "bad request") "2020-05-01" "2020-06-01"
      "USW00024233" "standard").1 "bad request" rfl).1

/-- Claim C6: every non-boolean schema field absent from an input row is
filled by the normalizer with the absence marker (`None`), a value
distinct from boolean `false`, from zero, and from the empty string. -/
theorem claim_c6 (r : List (String × Value)) (name : String) (t : FType)
    (ht : dailySummaryFields.lookup name = some t) (hnb : t ≠ FType.bool)
    (habs : r.lookup name = Option.none) :
    (remapRow r).lookup name = some Value.none ∧
    Value.none ≠ Value.bool false ∧ Value.none ≠ Value.int 0 ∧
    Value.none ≠ Value.float 0 ∧ Value.none ≠ Value.str "" := by
  refine ⟨?_, by decide, by decide, by decide, by decide⟩
  rw [remapRow_lookup, templateDict_lookup, ht]
  have hd : defaultFor t = Value.none := by
    cases t <;> first | rfl | exact absurd rfl hnb
  simp [remapValue, habs, hd]

theorem claim_c6_witness :
    (remapRow []).lookup "max_temp" = some Value.none :=
  (claim_c6 [] "max_temp" FType.int (by decide) (by decide) rfl).1

/-- Claim C7: for 10-character date strings, `_validate_dates` fails with a
`ValidationError` if and only if `start_date > end_date` in lexicographic
string order; otherwise (equal dates included) the pair is returned
unchanged. -/
theorem claim_c7 (s e : String) (hs : s.length = 10) (he : e.length = 10) :
    ((∃ msg, validateDates s e =
        Except.error (PipelineError.validationError msg)) ↔ pyStrLt e s = true) ∧
    (pyStrLt e s = false → validateDates s e = Except.ok (s, e)) := by
  unfold validateDates
  rw [if_neg (by simp [hs]), if_neg (by simp [he])]
  constructor
  · cases h : pyStrLt e s with
    | true => simp
    | false => simp
  · intro h
    rw [h]
    simp

theorem claim_c7_witness :
    validateDates "2020-05-01" "2020-05-01" = Except.ok ("2020-05-01", "2020-05-01") :=
  (claim_c7 "2020-05-01" "2020-05-01" (by decide) (by decide)).2 (by decide)

/-- Claim C8: the normalizer is idempotent on complete records: for every
record whose key set equals the full schema field-name set, the remapped
record agrees with the input on every key, so no default overwrites a
present value. -/
theorem claim_c8 (r : List (String × Value))
    (hkeys : ∀ k, k ∈ r.map Prod.fst ↔ k ∈ dailySummaryFields.map Prod.fst)
    (name : String) :
    (remapRow r).lookup name = r.lookup name := by
  rw [remapRow_lookup, templateDict_lookup]
  cases hr : r.lookup name with
  | some v =>
    have hmem : name ∈ dailySummaryFields.map Prod.fst := by
      rw [← hkeys, ← lookup_isSome_iff, hr]; rfl
    have hsome := (lookup_isSome_iff dailySummaryFields name).2 hmem
    cases hf : dailySummaryFields.lookup name with
    | none => rw [hf] at hsome; simp at hsome
    | some t => simp [remapValue, hr]
  | none =>
    have hmem : name ∉ dailySummaryFields.map Prod.fst := by
      rw [← hkeys, ← lookup_isSome_iff, hr]; simp
    cases hf : dailySummaryFields.lookup name with
    | none => rfl
    | some t =>
      exact absurd ((lookup_isSome_iff dailySummaryFields name).1 (by rw [hf]; rfl)) hmem

theorem claim_c8_witness :
    (remapRow templateDict).lookup "station" = templateDict.lookup "station" :=
  claim_c8 templateDict (fun _ => Iff.rfl) "station"

/-- Claim C9: when the units argument is empty the units selector falls back
to `"standard"`: the call behaves exactly as with `units="standard"` and
the request URL embeds `units=standard` (and an omitted argument defaults
to `"standard"` as well). -/
theorem claim_c9 (fetch : String → JsonResponse) (s e st u : String) (hu : u = "") :
    makeApiCall fetch s e st u = makeApiCall fetch s e st "standard" ∧
    List.IsInfix ("&units=standard&format=json" : String).toList
      (constructRequestUrl s e st (if u = "" then "standard" else u)).toList ∧
    getDailySummaries fetch st s e = getDailySummaries fetch st s e "standard" := by
  subst hu
  refine ⟨rfl, ?_, rfl⟩
  rw [if_pos rfl]
  refine ⟨(base_url ++ "&startDate=" ++ s ++ "&endDate=" ++ e
    ++ "&stations=" ++ st).toList, [], ?_⟩
  have hm : ("&units=standard&format=json" : String).data
      = ("&units=" : String).data ++ ("standard" : String).data
        ++ ("&format=json" : String).data := by decide
  simp [String.toList, constructRequestUrl, format_string, hm]

theorem claim_c9_witness :
    makeApiCall (fun _ => JsonResponse.arr []) "2020-05-01" "2020-06-01" "USW00024233" ""
      = makeApiCall (fun _ => JsonResponse.arr []) "2020-05-01" "2020-06-01"
        "USW00024233" "standard" ∧
    List.IsInfix ("&units=standard&format=json" : String).toList
      (constructRequestUrl "2020-05-01" "2020-06-01" "USW00024233"
        (if ("" : String) = "" then "standard" else "")).toList ∧
    getDailySummaries (fun _ => JsonResponse.arr []) "USW00024233" "2020-05-01" "2020-06-01"
      = getDailySummaries (fun _ => JsonResponse.arr []) "USW00024233" "2020-05-01"
        "2020-06-01" "standard" :=
  claim_c9 (fun _ => JsonResponse.arr []) "2020-05-01" "2020-06-01" "USW00024233" "" rfl

/-- Claim C10 (implicit): `_validate_dates` checks only the length of string
inputs, not their content: every pair of strings of length exactly 10 with
`start_date <= end_date` lexicographically is returned unchanged without
raising, even when the strings are not well-formed ISO-8601 dates. -/
theorem claim_c10 (s e : String) (hs : s.length = 10) (he : e.length = 10)
    (hle : pyStrLt e s = false) :
    validateDates s e = Except.ok (s, e) := by
  unfold validateDates
  rw [if_neg (by simp [hs]), if_neg (by simp [he]), hle]
  simp

theorem claim_c10_witness :
    validateDates "2020-13-99" "abcdefghij" = Except.ok ("2020-13-99", "abcdefghij") :=
  claim_c10 "2020-13-99" "abcdefghij" (by decide) (by decide) (by decide)

end NCEI
